import Mathlib

/-!
Verification of the artwork-gallery selection and pagination controller.

The embedded code comes from the React component (`App`) and the fetch
gateway (`api.ts`).  The selection mapping `{ [id: number]: boolean }` is
embedded as an association list whose lookup reads the first occurrence of
a key and whose update replaces the first occurrence in place (or appends
a fresh key), matching JavaScript object semantics.  Page numbers and
artwork ids are natural numbers; the visible-page-window computation uses
integers because the source uses `-1` as the ellipsis marker.
-/

set_option autoImplicit false

/-- An artwork record.  Only the unique integer `id` participates in the
selection and pagination logic; the display-only fields (title, artist,
dates, ...) are opaque to every embedded operation and are omitted. -/
structure Artwork where
  id : Nat
  deriving DecidableEq, Repr

/-- Pagination metadata of an API response (`pagination.total_pages`). -/
structure Pagination where
  total_pages : Nat
  deriving DecidableEq, Repr

/-- Shape of a successful API response: `{ data, pagination }`. -/
structure ArtworkApiResponse where
  data : List Artwork
  pagination : Pagination
  deriving DecidableEq, Repr

/-- The selection mapping `selectedArtworkIds : { [id: number]: boolean }`,
embedded as an association list. -/
abbrev Selection := List (Nat × Bool)

/-- Reading `sel[id]` on a JavaScript object: the value stored at the first
(and in a real object, only) occurrence of the key, or `none`. -/
def lookupSel : Selection → Nat → Option Bool
  | [], _ => none
  | (k, v) :: rest, id => if k = id then some v else lookupSel rest id

/-- Writing `sel[id] = b` on a JavaScript object: replace the value at an
existing key in place, or append a fresh key. -/
def setKey : Selection → Nat → Bool → Selection
  | [], id, b => [(id, b)]
  | (k, v) :: rest, id, b =>
    if k = id then (id, b) :: rest else (k, v) :: setKey rest id b

/-- `isArtworkSelected`: `selectedArtworkIds[artworkId] === true`. -/
def isArtworkSelected (sel : Selection) (artworkId : Nat) : Bool :=
  lookupSel sel artworkId == some true

/-- `areAllCurrentPageArtworksSelected`: `false` on an empty page, otherwise
every current-page artwork is selected. -/
def areAllCurrentPageArtworksSelected (currentPageArtworks : List Artwork)
    (sel : Selection) : Bool :=
  if currentPageArtworks.length = 0 then false
  else currentPageArtworks.all (fun artwork => isArtworkSelected sel artwork.id)

/-- `getTotalSelectedArtworkCount`:
`Object.values(selectedArtworkIds).filter(isSelected => isSelected).length`. -/
def getTotalSelectedArtworkCount (sel : Selection) : Nat :=
  ((sel.map Prod.snd).filter (fun b => b)).length

/-- `toggleArtworkSelection`: store the negation of the current
`isArtworkSelected` value. -/
def toggleArtworkSelection (sel : Selection) (artworkId : Nat) : Selection :=
  setKey sel artworkId (!(isArtworkSelected sel artworkId))

/-- `toggleAllCurrentPageArtworks`: evaluate `areAllCurrentPageArtworksSelected`
once, then write its negation at every current-page artwork id. -/
def toggleAllCurrentPageArtworks (currentPageArtworks : List Artwork)
    (sel : Selection) : Selection :=
  let allCurrentlySelected := areAllCurrentPageArtworksSelected currentPageArtworks sel
  let currentPageArtworkIds := currentPageArtworks.map Artwork.id
  currentPageArtworkIds.foldl
    (fun s artworkId => setKey s artworkId (!allCurrentlySelected)) sel

/-- Pager state of the component: `currentPage` and `totalPages` (both
non-negative integers in the source; `totalPages ≥ 0` is carried by the
`Nat` type here). -/
structure PagerState where
  currentPage : Nat
  totalPages : Nat
  deriving DecidableEq, Repr

/-- `goToFirstPage`: `setCurrentPage(1)`. -/
def goToFirstPage (st : PagerState) : PagerState :=
  { st with currentPage := 1 }

/-- `goToLastPage`: `setCurrentPage(totalPages)`, unconditionally. -/
def goToLastPage (st : PagerState) : PagerState :=
  { st with currentPage := st.totalPages }

/-- `goToPage`: set the current page only when `1 ≤ n ≤ totalPages`. -/
def goToPage (st : PagerState) (pageNumber : Nat) : PagerState :=
  if 1 ≤ pageNumber ∧ pageNumber ≤ st.totalPages then
    { st with currentPage := pageNumber }
  else st

/-- The pager-state invariant stated by the spec: `currentPage ≥ 1`
(`totalPages ≥ 0` holds by the `Nat` typing). -/
def pagerInvariant (st : PagerState) : Prop :=
  1 ≤ st.currentPage

instance (st : PagerState) : Decidable (pagerInvariant st) := by
  unfold pagerInvariant; infer_instance

/-- The inclusive integer range `[lo, lo+1, ..., hi]` built by the `for`
loop in `getVisiblePageNumbers` (empty when `hi < lo`). -/
def intRange (lo hi : Int) : List Int :=
  (List.range (hi + 1 - lo).toNat).map (fun k => lo + k)

/-- `getVisiblePageNumbers`: page 1, an optional ellipsis (`-1`), a window of
radius 2 around the current page clipped to `[2, totalPages-1]`, an optional
ellipsis, and the last page when `totalPages > 1`. -/
def getVisiblePageNumbers (currentPage totalPages : Int) : List Int :=
  let delta : Int := 2
  let range :=
    intRange (max 2 (currentPage - delta)) (min (totalPages - 1) (currentPage + delta))
  let head := if currentPage - delta > 2 then [(1 : Int), -1] else [1]
  let tail :=
    if currentPage + delta < totalPages - 1 then [-1, totalPages]
    else if totalPages > 1 then [totalPages] else []
  head ++ range ++ tail

/-- `selectFromList`: the `for (const artwork of ...)` loops inside
`performMultiPageSelection` — mark items `true` in order while fewer than
`numToSelect` have been marked, then break.  Returns the updated mapping
together with the updated `selectedCount`. -/
def selectFromList (numToSelect : Nat) :
    List Artwork → Selection → Nat → Selection × Nat
  | [], sel, cnt => (sel, cnt)
  | artwork :: rest, sel, cnt =>
    if cnt < numToSelect then
      selectFromList numToSelect rest (setKey sel artwork.id true) (cnt + 1)
    else (sel, cnt)

/-- `selectLoop`: the `while (selectedCount < numToSelect && pageToFetch <
totalPages)` loop of `performMultiPageSelection`.  Each iteration increments
the page cursor, fetches that page, and either consumes its items in order
or — when the fetch fails — breaks out of the loop, keeping the mapping
accumulated so far. -/
def selectLoop (fetch : Nat → Except String ArtworkApiResponse)
    (numToSelect totalPages : Nat) (pageToFetch : Nat)
    (sel : Selection) (cnt : Nat) : Selection :=
  if hGuard : cnt < numToSelect ∧ pageToFetch < totalPages then
    match fetch (pageToFetch + 1) with
    | Except.ok pageData =>
      let r := selectFromList numToSelect pageData.data sel cnt
      selectLoop fetch numToSelect totalPages (pageToFetch + 1) r.1 r.2
    | Except.error _ => sel
  else sel
termination_by totalPages - pageToFetch
decreasing_by exact Nat.sub_succ_lt_self _ _ hGuard.2

/-- `performMultiPageSelection(numToSelect)`: greedily mark the current
page's items, then walk forward page by page through `fetch` until
`numToSelect` items are marked, the last page is consumed, or a fetch
fails.  The caught fetch error is swallowed (logged in the source), so the
embedded operation is total and returns the accumulated mapping. -/
def performMultiPageSelection (fetch : Nat → Except String ArtworkApiResponse)
    (numToSelect : Nat) (currentPage totalPages : Nat)
    (currentPageArtworks : List Artwork)
    (selectedArtworkIds : Selection) : Selection :=
  let r := selectFromList numToSelect currentPageArtworks selectedArtworkIds 0
  selectLoop fetch numToSelect totalPages currentPage r.1 r.2

/-- Outcome of the HTTP transport inside `fetchArtworks`: either the fetch
itself fails, or it yields a response with an `ok` flag, a status code and
a body whose JSON decoding may itself fail. -/
structure HttpResponse where
  ok : Bool
  status : Nat
  body : Except String ArtworkApiResponse

/-- `fetchArtworks` (api.ts): reject a non-`ok` response with the error
`HTTP error! status: <status>`, otherwise return the decoded body; every
error is logged and re-thrown unchanged (so it reaches the caller as-is). -/
def fetchArtworks (transport : Except String HttpResponse) :
    Except String ArtworkApiResponse :=
  match transport with
  | Except.error e => Except.error e
  | Except.ok response =>
    if !response.ok then
      Except.error ("HTTP error! status: " ++ toString response.status)
    else response.body

/-- What the `App` component renders once the page-load query settles. -/
inductive AppView where
  | errorView : String → AppView
  | emptyView : AppView
  | tableView : List Artwork → AppView
  deriving DecidableEq, Repr

/-- The settled render branch of `App`: an error shows
`Failed to load artworks: <message>` and no table; an empty page shows the
info view; otherwise the record rows are rendered. -/
def renderApp (result : Except String ArtworkApiResponse) : AppView :=
  match result with
  | Except.error msg => AppView.errorView ("Failed to load artworks: " ++ msg)
  | Except.ok response =>
    if response.data.length = 0 then AppView.emptyView
    else AppView.tableView response.data

/-! ### Specification-side helpers -/

/-- Write the constant `b` at every id of `ids`, in order (the shape of the
`forEach` in `toggleAllCurrentPageArtworks` and, with `b = true`, of the
marking loops in `performMultiPageSelection`). -/
def setAll (sel : Selection) (ids : List Nat) (b : Bool) : Selection :=
  ids.foldl (fun s i => setKey s i b) sel

/-- Mark every listed artwork as selected, in order. -/
def markAll (sel : Selection) (items : List Artwork) : Selection :=
  setAll sel (items.map Artwork.id) true

/-- The items of pages `p+1, p+2, ..., p+k`, concatenated in fetch order. -/
def flatPages (pages : Nat → List Artwork) (p : Nat) : Nat → List Artwork
  | 0 => []
  | k + 1 => pages (p + 1) ++ flatPages pages (p + 1) k

/-! ### Basic lemmas about the selection mapping -/

theorem lookupSel_setKey (sel : Selection) (id : Nat) (b : Bool) (j : Nat) :
    lookupSel (setKey sel id b) j = if j = id then some b else lookupSel sel j := by
  induction sel with
  | nil =>
    by_cases h : j = id
    · subst h; simp [setKey, lookupSel]
    · simp [setKey, lookupSel, h, Ne.symm h]
  | cons p rest ih =>
    obtain ⟨k, v⟩ := p
    by_cases hk : k = id
    · subst hk
      by_cases hj : j = k
      · subst hj; simp [setKey, lookupSel]
      · simp [setKey, lookupSel, hj, Ne.symm hj]
    · by_cases hj : k = j
      · subst hj
        simp [setKey, lookupSel, hk, Ne.symm hk]
      · simp [setKey, lookupSel, hk, hj, ih]

theorem isArtworkSelected_setKey (sel : Selection) (id : Nat) (b : Bool) (j : Nat) :
    isArtworkSelected (setKey sel id b) j
      = if j = id then b else isArtworkSelected sel j := by
  unfold isArtworkSelected
  rw [lookupSel_setKey]
  by_cases h : j = id
  · rw [if_pos h, if_pos h]; cases b <;> simp
  · rw [if_neg h, if_neg h]

theorem lookupSel_setAll (ids : List Nat) (b : Bool) :
    ∀ (sel : Selection) (j : Nat),
      lookupSel (setAll sel ids b) j = if j ∈ ids then some b else lookupSel sel j := by
  induction ids with
  | nil => intro sel j; simp [setAll]
  | cons i rest ih =>
    intro sel j
    have hstep : setAll sel (i :: rest) b = setAll (setKey sel i b) rest b := rfl
    rw [hstep, ih, lookupSel_setKey]
    by_cases hr : j ∈ rest
    · simp [hr]
    · by_cases hi : j = i <;> simp [hr, hi]

theorem isArtworkSelected_setAll (ids : List Nat) (b : Bool) (sel : Selection) (j : Nat) :
    isArtworkSelected (setAll sel ids b) j
      = if j ∈ ids then b else isArtworkSelected sel j := by
  unfold isArtworkSelected
  rw [lookupSel_setAll]
  by_cases h : j ∈ ids
  · rw [if_pos h, if_pos h]; cases b <;> simp
  · rw [if_neg h, if_neg h]

theorem isArtworkSelected_markAll (items : List Artwork) (sel : Selection) (j : Nat) :
    isArtworkSelected (markAll sel items) j
      = if j ∈ items.map Artwork.id then true else isArtworkSelected sel j := by
  unfold markAll
  rw [isArtworkSelected_setAll]

theorem markAll_append (sel : Selection) (xs ys : List Artwork) :
    markAll sel (xs ++ ys) = markAll (markAll sel xs) ys := by
  simp [markAll, setAll, List.foldl_append]

/-! ### The marking loops, characterised -/

theorem selectFromList_spec (n : Nat) :
    ∀ (items : List Artwork) (sel : Selection) (cnt : Nat),
      selectFromList n items sel cnt
        = (markAll sel (items.take (n - cnt)), cnt + min (n - cnt) items.length) := by
  intro items
  induction items with
  | nil => intro sel cnt; simp [selectFromList, markAll, setAll]
  | cons a rest ih =>
    intro sel cnt
    by_cases h : cnt < n
    · have hm : n - cnt = (n - cnt - 1) + 1 := by omega
      have h1 : n - (cnt + 1) = n - cnt - 1 := by omega
      rw [selectFromList, if_pos h, ih, h1, hm, List.take_succ_cons, Prod.mk.injEq]
      refine ⟨rfl, ?_⟩
      simp only [List.length_cons]
      omega
    · have h0 : n - cnt = 0 := by omega
      rw [selectFromList, if_neg h, h0]
      simp [markAll, setAll]

theorem selectFromList_fst (n : Nat) (items : List Artwork) (sel : Selection) (cnt : Nat) :
    (selectFromList n items sel cnt).1 = markAll sel (items.take (n - cnt)) := by
  rw [selectFromList_spec]

theorem selectFromList_snd (n : Nat) (items : List Artwork) (sel : Selection) (cnt : Nat) :
    (selectFromList n items sel cnt).2 = cnt + min (n - cnt) items.length := by
  rw [selectFromList_spec]

theorem selectLoop_ok (api : Nat → ArtworkApiResponse) (n tp : Nat) :
    ∀ (k p : Nat) (sel : Selection) (cnt : Nat), tp - p = k →
      selectLoop (fun q => Except.ok (api q)) n tp p sel cnt
        = markAll sel ((flatPages (fun q => (api q).data) p k).take (n - cnt)) := by
  intro k
  induction k with
  | zero =>
    intro p sel cnt hk
    rw [selectLoop, dif_neg (by omega : ¬(cnt < n ∧ p < tp))]
    simp [flatPages, markAll, setAll]
  | succ k ih =>
    intro p sel cnt hk
    rw [selectLoop]
    by_cases h : cnt < n
    · rw [dif_pos ⟨h, by omega⟩]
      show selectLoop (fun q => Except.ok (api q)) n tp (p + 1)
          (selectFromList n (api (p + 1)).data sel cnt).1
          (selectFromList n (api (p + 1)).data sel cnt).2
        = markAll sel ((flatPages (fun q => (api q).data) p (k + 1)).take (n - cnt))
      rw [ih (p + 1) _ _ (by omega), selectFromList_fst, selectFromList_snd]
      have hflat : flatPages (fun q => (api q).data) p (k + 1)
          = (api (p + 1)).data ++ flatPages (fun q => (api q).data) (p + 1) k := rfl
      have harith : n - (cnt + min (n - cnt) (api (p + 1)).data.length)
          = (n - cnt) - (api (p + 1)).data.length := by omega
      rw [hflat, List.take_append_eq_append_take, markAll_append, harith]
    · rw [dif_neg (fun hc => h hc.1)]
      have h0 : n - cnt = 0 := by omega
      rw [h0]
      simp [markAll, setAll]

theorem selectLoop_fail (api : Nat → ArtworkApiResponse) (err : String) (n tp qf : Nat) :
    ∀ (k p : Nat) (sel : Selection) (cnt : Nat), p < qf → qf ≤ tp → qf - 1 - p = k →
      selectLoop (fun q => if q = qf then Except.error err else Except.ok (api q))
          n tp p sel cnt
        = markAll sel ((flatPages (fun q => (api q).data) p k).take (n - cnt)) := by
  intro k
  induction k with
  | zero =>
    intro p sel cnt hpq hqt hk
    rw [selectLoop]
    by_cases h : cnt < n
    · rw [dif_pos ⟨h, by omega⟩]
      rw [if_pos (by omega : p + 1 = qf)]
      simp [flatPages, markAll, setAll]
    · rw [dif_neg (fun hc => h hc.1)]
      have h0 : n - cnt = 0 := by omega
      rw [h0]
      simp [markAll, setAll]
  | succ k ih =>
    intro p sel cnt hpq hqt hk
    rw [selectLoop]
    by_cases h : cnt < n
    · rw [dif_pos ⟨h, by omega⟩]
      rw [if_neg (by omega : ¬ p + 1 = qf)]
      show selectLoop (fun q => if q = qf then Except.error err else Except.ok (api q))
          n tp (p + 1)
          (selectFromList n (api (p + 1)).data sel cnt).1
          (selectFromList n (api (p + 1)).data sel cnt).2
        = markAll sel ((flatPages (fun q => (api q).data) p (k + 1)).take (n - cnt))
      rw [ih (p + 1) _ _ (by omega) hqt (by omega), selectFromList_fst, selectFromList_snd]
      have hflat : flatPages (fun q => (api q).data) p (k + 1)
          = (api (p + 1)).data ++ flatPages (fun q => (api q).data) (p + 1) k := rfl
      have harith : n - (cnt + min (n - cnt) (api (p + 1)).data.length)
          = (n - cnt) - (api (p + 1)).data.length := by omega
      rw [hflat, List.take_append_eq_append_take, markAll_append, harith]
    · rw [dif_neg (fun hc => h hc.1)]
      have h0 : n - cnt = 0 := by omega
      rw [h0]
      simp [markAll, setAll]

/-- `performMultiPageSelection` with every fetch succeeding marks exactly the
first `n` items of the current page followed by all later pages. -/
theorem performMultiPageSelection_ok (api : Nat → ArtworkApiResponse)
    (n cp tp : Nat) (arts : List Artwork) (sel : Selection) :
    performMultiPageSelection (fun q => Except.ok (api q)) n cp tp arts sel
      = markAll sel ((arts ++ flatPages (fun q => (api q).data) cp (tp - cp)).take n) := by
  unfold performMultiPageSelection
  rw [selectLoop_ok api n tp (tp - cp) cp _ _ rfl, selectFromList_fst, selectFromList_snd]
  have harith : n - (0 + min (n - 0) arts.length) = (n - 0) - arts.length := by omega
  rw [harith, List.take_append_eq_append_take, markAll_append]
  simp

/-- `performMultiPageSelection` when the fetch of page `qf` fails (and the
pages strictly between the current one and `qf` succeed) marks exactly the
first `n` items of the current page followed by pages up to `qf - 1`. -/
theorem performMultiPageSelection_fail (api : Nat → ArtworkApiResponse) (err : String)
    (n cp tp qf : Nat) (arts : List Artwork) (sel : Selection)
    (h1 : cp < qf) (h2 : qf ≤ tp) :
    performMultiPageSelection
        (fun q => if q = qf then Except.error err else Except.ok (api q)) n cp tp arts sel
      = markAll sel
          ((arts ++ flatPages (fun q => (api q).data) cp (qf - 1 - cp)).take n) := by
  unfold performMultiPageSelection
  rw [selectLoop_fail api err n tp qf (qf - 1 - cp) cp _ _ h1 h2 rfl,
    selectFromList_fst, selectFromList_snd]
  have harith : n - (0 + min (n - 0) arts.length) = (n - 0) - arts.length := by omega
  rw [harith, List.take_append_eq_append_take, markAll_append]
  simp

/-! ### Counting selected ids -/

theorem getTotal_cons (k : Nat) (v : Bool) (rest : Selection) :
    getTotalSelectedArtworkCount ((k, v) :: rest)
      = (if v then 1 else 0) + getTotalSelectedArtworkCount rest := by
  cases v <;> simp [getTotalSelectedArtworkCount] <;> omega

theorem getTotal_setKey_true (sel : Selection) (id : Nat) :
    getTotalSelectedArtworkCount (setKey sel id true)
      = getTotalSelectedArtworkCount sel
          + (if lookupSel sel id = some true then 0 else 1) := by
  induction sel with
  | nil => simp [setKey, lookupSel, getTotalSelectedArtworkCount]
  | cons p rest ih =>
    obtain ⟨k, v⟩ := p
    by_cases hk : k = id
    · subst hk
      cases v <;> simp [setKey, getTotal_cons, lookupSel] <;> omega
    · simp only [setKey, if_neg hk, getTotal_cons, lookupSel, ih]
      by_cases hl : lookupSel rest id = some true <;> simp [hl] <;> omega

theorem getTotal_markAll :
    ∀ (items : List Artwork) (sel : Selection),
      (items.map Artwork.id).Nodup →
      (∀ a ∈ items, lookupSel sel a.id ≠ some true) →
      getTotalSelectedArtworkCount (markAll sel items)
        = getTotalSelectedArtworkCount sel + items.length := by
  intro items
  induction items with
  | nil => intro sel _ _; simp [markAll, setAll]
  | cons a rest ih =>
    intro sel hnd hna
    have hnd' : (rest.map Artwork.id).Nodup := by
      simp only [List.map_cons, List.nodup_cons] at hnd; exact hnd.2
    have hmem : a.id ∉ rest.map Artwork.id := by
      simp only [List.map_cons, List.nodup_cons] at hnd; exact hnd.1
    have hna' : ∀ b ∈ rest, lookupSel (setKey sel a.id true) b.id ≠ some true := by
      intro b hb
      rw [lookupSel_setKey]
      have hne : ¬ b.id = a.id := fun he => hmem (he ▸ List.mem_map_of_mem _ hb)
      rw [if_neg hne]
      exact hna b (List.mem_cons_of_mem _ hb)
    have hstep : markAll sel (a :: rest) = markAll (setKey sel a.id true) rest := rfl
    rw [hstep, ih _ hnd' hna', getTotal_setKey_true,
      if_neg (hna a (List.mem_cons_self _ _))]
    simp only [List.length_cons]
    omega

theorem lookupSel_allFalse :
    ∀ (sel : Selection), (∀ p ∈ sel, p.2 = false) →
      ∀ j, lookupSel sel j ≠ some true := by
  intro sel
  induction sel with
  | nil => intro _ j; simp [lookupSel]
  | cons p rest ih =>
    intro hall j
    obtain ⟨k, v⟩ := p
    have hv : v = false := hall (k, v) (List.mem_cons_self _ _)
    subst hv
    by_cases hk : k = j
    · simp [lookupSel, hk]
    · simp only [lookupSel, if_neg hk]
      exact ih (fun q hq => hall q (List.mem_cons_of_mem _ hq)) j

theorem isArtworkSelected_allFalse (sel : Selection)
    (hall : ∀ p ∈ sel, p.2 = false) (j : Nat) :
    isArtworkSelected sel j = false := by
  unfold isArtworkSelected
  exact beq_eq_false_iff_ne.mpr (lookupSel_allFalse sel hall j)

theorem getTotal_allFalse :
    ∀ (sel : Selection), (∀ p ∈ sel, p.2 = false) →
      getTotalSelectedArtworkCount sel = 0 := by
  intro sel
  induction sel with
  | nil => intro _; rfl
  | cons p rest ih =>
    intro hall
    obtain ⟨k, v⟩ := p
    have hv : v = false := hall (k, v) (List.mem_cons_self _ _)
    subst hv
    rw [getTotal_cons, if_neg (by simp)]
    simpa using ih (fun q hq => hall q (List.mem_cons_of_mem _ hq))

/-! ### Monotonicity of the marking operations -/

theorem isArtworkSelected_markAll_mono (items : List Artwork) (sel : Selection)
    (j : Nat) (h : isArtworkSelected sel j = true) :
    isArtworkSelected (markAll sel items) j = true := by
  rw [isArtworkSelected_markAll]
  by_cases hm : j ∈ items.map Artwork.id <;> simp [hm, h]

theorem selectLoop_mono (fetch : Nat → Except String ArtworkApiResponse)
    (n tp : Nat) :
    ∀ (k p : Nat) (sel : Selection) (cnt j : Nat), tp - p = k →
      isArtworkSelected sel j = true →
      isArtworkSelected (selectLoop fetch n tp p sel cnt) j = true := by
  intro k
  induction k with
  | zero =>
    intro p sel cnt j hk h
    rw [selectLoop, dif_neg (by omega : ¬(cnt < n ∧ p < tp))]
    exact h
  | succ k ih =>
    intro p sel cnt j hk h
    rw [selectLoop]
    by_cases hg : cnt < n ∧ p < tp
    · rw [dif_pos hg]
      cases hfetch : fetch (p + 1) with
      | ok pageData =>
        show isArtworkSelected
            (selectLoop fetch n tp (p + 1)
              (selectFromList n pageData.data sel cnt).1
              (selectFromList n pageData.data sel cnt).2) j = true
        refine ih (p + 1) _ _ j (by omega) ?_
        rw [selectFromList_fst]
        exact isArtworkSelected_markAll_mono _ _ _ h
      | error e => exact h
    · rw [dif_neg hg]
      exact h

theorem areAll_setAll_const (arts : List Artwork) (sel : Selection) (b : Bool)
    (h : arts ≠ []) :
    areAllCurrentPageArtworksSelected arts (setAll sel (arts.map Artwork.id) b) = b := by
  unfold areAllCurrentPageArtworksSelected
  rw [if_neg (by simpa using h)]
  have hsel : ∀ a ∈ arts,
      isArtworkSelected (setAll sel (arts.map Artwork.id) b) a.id = b := by
    intro a ha
    rw [isArtworkSelected_setAll, if_pos (List.mem_map_of_mem _ ha)]
  cases b with
  | true => exact List.all_eq_true.mpr (fun a ha => hsel a ha)
  | false =>
    obtain ⟨a, ha⟩ : ∃ a, a ∈ arts := by
      cases arts with
      | nil => exact absurd rfl h
      | cons x xs => exact ⟨x, List.mem_cons_self _ _⟩
    refine List.all_eq_false.mpr ⟨a, ha, ?_⟩
    simp [hsel a ha]

/-! ### Claims -/

/-- C2 counterexample: for `totalPages = 0` (current page 1) the window is
`[1]`, not the empty list claimed by the spec — page 1 is pushed
unconditionally. -/
theorem visiblePageWindow_totalPagesZero_cex :
    getVisiblePageNumbers 1 0 = [1] ∧ getVisiblePageNumbers 1 0 ≠ [] := by
  decide

/-- C2 (amended): for `totalPages ≤ 1` and a current page in `[1, 4]`
(in particular the only legal page 1), the window is `[1]` — including for
`totalPages = 0`, where it is still `[1]` rather than the empty list. -/
theorem visiblePageWindow_degenerate (cp tp : Int)
    (h1 : 1 ≤ cp) (h2 : cp ≤ 4) (h0 : tp ≤ 1) :
    getVisiblePageNumbers cp tp = [1] := by
  simp only [getVisiblePageNumbers]
  rw [if_neg (by omega : ¬ cp - 2 > 2), if_neg (by omega : ¬ cp + 2 < tp - 1),
    if_neg (by omega : ¬ tp > 1)]
  have hr : intRange (max 2 (cp - 2)) (min (tp - 1) (cp + 2)) = [] := by
    unfold intRange
    rw [Int.toNat_of_nonpos (by omega)]
    rfl
  rw [hr]
  rfl

/-- C2 witness: the single-page case evaluates to `[1]`. -/
theorem visiblePageWindow_degenerate_witness :
    getVisiblePageNumbers 1 1 = [1] :=
  visiblePageWindow_degenerate 1 1 (by decide) (by decide) (by decide)

/-- C4: the three concrete pager windows claimed by the spec, with `-1` as
the ellipsis marker. -/
theorem visiblePageWindow_examples :
    getVisiblePageNumbers 1 10 = [1, 2, 3, -1, 10]
    ∧ getVisiblePageNumbers 5 10 = [1, -1, 3, 4, 5, 6, 7, -1, 10]
    ∧ getVisiblePageNumbers 1 1 = [1] := by
  decide

/-- C6 counterexample: from the invariant-satisfying state
`currentPage = 1, totalPages = 0`, `goToLastPage` sets `currentPage` to 0,
below 1 — the claimed invariant is not preserved by every navigation
operation. -/
theorem pager_goToLastPage_cex :
    pagerInvariant ⟨1, 0⟩
    ∧ ¬ pagerInvariant (goToLastPage ⟨1, 0⟩)
    ∧ (goToLastPage ⟨1, 0⟩).currentPage = 0 := by
  refine ⟨by decide, by decide, rfl⟩

/-- C6 (amended): from any state satisfying the invariant, `goToFirstPage`
and `goToPage` preserve `currentPage ≥ 1` (with `totalPages ≥ 0` carried by
the type); `goToLastPage` preserves it exactly when `totalPages ≥ 1` —
with `totalPages = 0` it sets `currentPage` to 0. -/
theorem pager_navigation_invariant (st : PagerState) (n : Nat)
    (hinv : pagerInvariant st) :
    pagerInvariant (goToFirstPage st)
    ∧ pagerInvariant (goToPage st n)
    ∧ (1 ≤ st.totalPages → pagerInvariant (goToLastPage st)) := by
  refine ⟨Nat.le_refl 1, ?_, fun h => h⟩
  unfold goToPage
  by_cases h : 1 ≤ n ∧ n ≤ st.totalPages
  · rw [if_pos h]; exact h.1
  · rw [if_neg h]; exact hinv

/-- C6 witness: a concrete in-invariant state on which all three
navigation operations keep `currentPage ≥ 1`. -/
theorem pager_navigation_invariant_witness :
    pagerInvariant (goToLastPage ⟨2, 3⟩) :=
  (pager_navigation_invariant ⟨2, 3⟩ 5 (by decide)).2.2 (by decide)

/-- C7: toggling the same id twice in succession restores
`isArtworkSelected` to its original value. -/
theorem toggle_involutive (sel : Selection) (id : Nat) :
    isArtworkSelected (toggleArtworkSelection (toggleArtworkSelection sel id) id) id
      = isArtworkSelected sel id := by
  unfold toggleArtworkSelection
  simp [isArtworkSelected_setKey]

/-- C10: `toggleArtworkSelection id` leaves every other id unchanged, and
`toggleAllCurrentPageArtworks` leaves every id outside the current page's
ids unchanged — selections on other pages are untouched. -/
theorem selection_frame :
    (∀ (sel : Selection) (id j : Nat), j ≠ id →
      isArtworkSelected (toggleArtworkSelection sel id) j = isArtworkSelected sel j)
    ∧ (∀ (arts : List Artwork) (sel : Selection) (j : Nat),
        j ∉ arts.map Artwork.id →
        isArtworkSelected (toggleAllCurrentPageArtworks arts sel) j
          = isArtworkSelected sel j) := by
  constructor
  · intro sel id j hne
    unfold toggleArtworkSelection
    rw [isArtworkSelected_setKey, if_neg hne]
  · intro arts sel j hnm
    have htog : toggleAllCurrentPageArtworks arts sel
        = setAll sel (arts.map Artwork.id)
            (!areAllCurrentPageArtworksSelected arts sel) := rfl
    rw [htog, isArtworkSelected_setAll, if_neg hnm]

/-- C10 witness: id 1 is untouched by toggling id 2 and by toggling a page
that does not contain id 1. -/
theorem selection_frame_witness :
    isArtworkSelected (toggleArtworkSelection [(1, true)] 2) 1
        = isArtworkSelected [(1, true)] 1
    ∧ isArtworkSelected (toggleAllCurrentPageArtworks [⟨2⟩, ⟨3⟩] [(1, true)]) 1
        = isArtworkSelected [(1, true)] 1 :=
  ⟨selection_frame.1 [(1, true)] 2 1 (by decide),
   selection_frame.2 [⟨2⟩, ⟨3⟩] [(1, true)] 1 (by decide)⟩

/-- C8: a non-`ok` response makes `fetchArtworks` propagate the error
`HTTP error! status: <s>` unchanged, and the settled render shows
`Failed to load artworks: HTTP error! status: <s>` with no record rows. -/
theorem fetchArtworks_httpError (resp : HttpResponse) (h : resp.ok = false) :
    fetchArtworks (Except.ok resp)
      = Except.error ("HTTP error! status: " ++ toString resp.status)
    ∧ renderApp (fetchArtworks (Except.ok resp))
      = AppView.errorView
          ("Failed to load artworks: " ++ ("HTTP error! status: " ++ toString resp.status))
    ∧ ∀ items, renderApp (fetchArtworks (Except.ok resp)) ≠ AppView.tableView items := by
  have hfetch : fetchArtworks (Except.ok resp)
      = Except.error ("HTTP error! status: " ++ toString resp.status) := by
    simp [fetchArtworks, h]
  refine ⟨hfetch, ?_, ?_⟩
  · rw [hfetch]; rfl
  · intro items
    rw [hfetch]
    simp [renderApp]

/-- C8 witness: an HTTP 500 response yields exactly the message
`Failed to load artworks: HTTP error! status: 500`. -/
theorem fetchArtworks_httpError_witness :
    renderApp (fetchArtworks (Except.ok ⟨false, 500, Except.ok ⟨[], ⟨0⟩⟩⟩))
      = AppView.errorView "Failed to load artworks: HTTP error! status: 500" := by
  have h := (fetchArtworks_httpError ⟨false, 500, Except.ok ⟨[], ⟨0⟩⟩⟩ rfl).2.1
  rw [h]
  rfl

/-- C5: on a non-empty current page, `toggleAllCurrentPageArtworks` makes
`areAllCurrentPageArtworksSelected` true when it was false, and deselects
every current-page item (making it false) when it was true; on an empty
page it is false both before and after. -/
theorem toggleAllCurrentPage_spec (arts : List Artwork) (sel : Selection) :
    areAllCurrentPageArtworksSelected arts (toggleAllCurrentPageArtworks arts sel)
      = (!(areAllCurrentPageArtworksSelected arts sel) && !(arts.isEmpty))
    ∧ (areAllCurrentPageArtworksSelected arts sel = true →
        ∀ a ∈ arts,
          isArtworkSelected (toggleAllCurrentPageArtworks arts sel) a.id = false)
    ∧ (arts.isEmpty = true → areAllCurrentPageArtworksSelected arts sel = false) := by
  have htog : toggleAllCurrentPageArtworks arts sel
      = setAll sel (arts.map Artwork.id)
          (!areAllCurrentPageArtworksSelected arts sel) := rfl
  by_cases hne : arts = []
  · subst hne
    refine ⟨by simp [areAllCurrentPageArtworksSelected], ?_, fun _ => rfl⟩
    intro _ a ha
    simp at ha
  · refine ⟨?_, ?_, ?_⟩
    · rw [htog, areAll_setAll_const arts sel _ hne,
        (by simpa using hne : arts.isEmpty = false)]
      simp
    · intro hall a ha
      rw [htog, hall, isArtworkSelected_setAll,
        if_pos (List.mem_map_of_mem _ ha)]
      rfl
    · intro hie
      exact absurd (by simpa using hie) hne

/-- C5 witness: a fully-selected two-item page is fully deselected by the
toggle. -/
theorem toggleAllCurrentPage_spec_witness :
    isArtworkSelected
        (toggleAllCurrentPageArtworks [⟨1⟩, ⟨2⟩] [(1, true), (2, true)]) 1 = false :=
  (toggleAllCurrentPage_spec [⟨1⟩, ⟨2⟩] [(1, true), (2, true)]).2.1
    (by decide) ⟨1⟩ (by decide)

/-- C9: `performMultiPageSelection` only ever marks ids as selected — for
any fetch behaviour (success, exhaustion or failure), every id selected
before the operation is still selected afterwards. -/
theorem selectFirstN_monotone (fetch : Nat → Except String ArtworkApiResponse)
    (n cp tp : Nat) (arts : List Artwork) (sel : Selection) (j : Nat)
    (h : isArtworkSelected sel j = true) :
    isArtworkSelected (performMultiPageSelection fetch n cp tp arts sel) j = true := by
  unfold performMultiPageSelection
  refine selectLoop_mono fetch n tp (tp - cp) cp _ _ j rfl ?_
  rw [selectFromList_fst]
  exact isArtworkSelected_markAll_mono _ _ _ h

/-- C9 witness: a pre-selected id survives a run whose every fetch fails. -/
theorem selectFirstN_monotone_witness :
    isArtworkSelected
        (performMultiPageSelection (fun _ => Except.error "down") 2 1 3
          [⟨7⟩] [(5, true)]) 5 = true :=
  selectFirstN_monotone (fun _ => Except.error "down") 2 1 3 [⟨7⟩] [(5, true)] 5
    (by decide)

/-- C1: with no pre-selected ids, distinct ids going forward, and every
fetch succeeding, `performMultiPageSelection n` selects exactly
`min n m` ids (`m` = items on the current page plus all later pages),
namely the ids of the first `n` such items in forward page/display order;
the operation is total, so it completes without raising an error. -/
theorem selectFirstN_selects_first_n (api : Nat → ArtworkApiResponse)
    (n cp tp : Nat) (arts : List Artwork) (sel : Selection)
    (hfalse : ∀ p ∈ sel, p.2 = false)
    (hnodup : ((arts ++ flatPages (fun q => (api q).data) cp (tp - cp)).map
        Artwork.id).Nodup)
    (hn : 0 < n) :
    getTotalSelectedArtworkCount
        (performMultiPageSelection (fun q => Except.ok (api q)) n cp tp arts sel)
      = min n (arts ++ flatPages (fun q => (api q).data) cp (tp - cp)).length
    ∧ ∀ j, isArtworkSelected
          (performMultiPageSelection (fun q => Except.ok (api q)) n cp tp arts sel) j
        = decide (j ∈ ((arts ++ flatPages (fun q => (api q).data) cp (tp - cp)).take
            n).map Artwork.id) := by
  rw [performMultiPageSelection_ok]
  constructor
  · rw [getTotal_markAll _ _ ?nodup ?fresh]
    case nodup =>
      rw [List.map_take]
      exact List.Nodup.sublist (List.take_sublist _ _) hnodup
    case fresh =>
      intro a _
      exact lookupSel_allFalse sel hfalse a.id
    rw [getTotal_allFalse sel hfalse, List.length_take]
    omega
  · intro j
    rw [isArtworkSelected_markAll]
    by_cases hm : j ∈ ((arts ++ flatPages (fun q => (api q).data) cp
        (tp - cp)).take n).map Artwork.id
    · rw [if_pos hm]
      exact (decide_eq_true hm).symm
    · rw [if_neg hm, isArtworkSelected_allFalse sel hfalse j]
      exact (decide_eq_false hm).symm

/-- C1 witness: the current page holds ids 10, 11 and pages 2–4 hold two
ids each; selecting 5 from page 1 of 4 marks exactly 5 ids. -/
theorem selectFirstN_selects_first_n_witness :
    getTotalSelectedArtworkCount
        (performMultiPageSelection
          (fun q => Except.ok ⟨[⟨10 * q⟩, ⟨10 * q + 1⟩], ⟨4⟩⟩) 5 1 4
          [⟨10⟩, ⟨11⟩] []) = 5 := by
  have h := (selectFirstN_selects_first_n
      (fun q => ⟨[⟨10 * q⟩, ⟨10 * q + 1⟩], ⟨4⟩⟩) 5 1 4 [⟨10⟩, ⟨11⟩] []
      (by simp) (by decide) (by decide)).1
  exact h.trans (by decide)

/-- C3: if the fetch of intermediate page `qf` fails, the operation stops
there: the result equals exactly the marks accumulated before the failure
(current page plus pages up to `qf - 1`, capped at `n`) — partial
application with no rollback — and every id marked before the failure is
selected in the result.  The embedded operation is total (the source
catches the error after logging it), so nothing is propagated to the
caller. -/
theorem selectFirstN_partial_on_failure (api : Nat → ArtworkApiResponse)
    (err : String) (n cp tp qf : Nat) (arts : List Artwork) (sel : Selection)
    (h1 : cp < qf) (h2 : qf ≤ tp) :
    performMultiPageSelection
        (fun q => if q = qf then Except.error err else Except.ok (api q))
        n cp tp arts sel
      = markAll sel
          ((arts ++ flatPages (fun q => (api q).data) cp (qf - 1 - cp)).take n)
    ∧ (∀ j, j ∈ ((arts ++ flatPages (fun q => (api q).data) cp
          (qf - 1 - cp)).take n).map Artwork.id →
        isArtworkSelected
          (performMultiPageSelection
            (fun q => if q = qf then Except.error err else Except.ok (api q))
            n cp tp arts sel) j = true)
    ∧ (∀ j, isArtworkSelected sel j = true →
        isArtworkSelected
          (performMultiPageSelection
            (fun q => if q = qf then Except.error err else Except.ok (api q))
            n cp tp arts sel) j = true) := by
  have heq := performMultiPageSelection_fail api err n cp tp qf arts sel h1 h2
  refine ⟨heq, ?_, ?_⟩
  · intro j hj
    rw [heq, isArtworkSelected_markAll, if_pos hj]
  · intro j hsel
    rw [heq]
    exact isArtworkSelected_markAll_mono _ _ _ hsel

/-- C3 witness: two-id pages, requesting 7 from page 1 of 4 with page 3
failing keeps exactly the four ids of pages 1 and 2. -/
theorem selectFirstN_partial_on_failure_witness :
    performMultiPageSelection
        (fun q => if q = 3 then Except.error "network failure"
          else Except.ok ⟨[⟨10 * q⟩, ⟨10 * q + 1⟩], ⟨4⟩⟩) 7 1 4
        [⟨10⟩, ⟨11⟩] []
      = [(10, true), (11, true), (20, true), (21, true)] := by
  have h := (selectFirstN_partial_on_failure
      (fun q => ⟨[⟨10 * q⟩, ⟨10 * q + 1⟩], ⟨4⟩⟩) "network failure" 7 1 4 3
      [⟨10⟩, ⟨11⟩] [] (by decide) (by decide)).1
  exact h.trans (by decide)
